import Mathlib

/-!
Verification of src/pdf_chat_api.py, a FastAPI document question-answering
service. The file below is a shallow embedding of the logic that lives in
the repository itself: module initialization (the GOOGLE_API_KEY check,
lines 16-30), the page-concatenation loop of get_pdf_text (lines 46-52),
the root endpoint read_root (lines 87-92), and the ask_question request
pipeline with its catch-all error handler (lines 96-129).

Calls into third-party libraries (PyPDF2 page extraction, the langchain
text splitter, the Chroma vector store, the Gemini chain) are modelled as
abstract stage functions that may fail with a message, mirroring Python
exceptions; the control flow around them is translated from the source.
-/

namespace PdfChatApi

/-- Truthiness of an optional Python string: `not x` is true exactly when
`x` is `None` or the empty string. Used by the credential check on line 19
of src/pdf_chat_api.py. -/
def pyFalsyStr : Option String → Bool
  | none => true
  | some s => s = ""

/-- Message of the ValueError raised on line 20 of src/pdf_chat_api.py. -/
def keyMissingMsg : String := "GOOGLE_API_KEY not found in environment variables"

/-- Outcome of importing the module: either initialization raised (so the
process never starts and no route is registered), or the FastAPI app is
running with its registered route paths. -/
inductive InitResult where
  | failed (msg : String)
  | running (routes : List String)
deriving DecidableEq, Repr

/-- Module-level initialization of src/pdf_chat_api.py (lines 16-30 and the
route decorators): `GOOGLE_API_KEY = os.getenv("GOOGLE_API_KEY")` followed by
`if not GOOGLE_API_KEY: raise ValueError(...)`; only when the check passes is
the FastAPI app created and the two routes registered. The environment is an
abstract map from variable names to optional values. -/
def moduleInit (env : String → Option String) : InitResult :=
  let googleApiKey := env "GOOGLE_API_KEY"
  if pyFalsyStr googleApiKey then
    InitResult.failed keyMissingMsg
  else
    InitResult.running ["/", "/ask_question/"]

/-- Environment with no GOOGLE_API_KEY variable at all. -/
def envAbsent : String → Option String := fun _ => none

/-- Environment where GOOGLE_API_KEY is present but set to the empty string. -/
def envEmptyKey : String → Option String :=
  fun v => if v = "GOOGLE_API_KEY" then some "" else none

/-- Environment where GOOGLE_API_KEY is present with a non-empty value. -/
def envGoodKey : String → Option String :=
  fun v => if v = "GOOGLE_API_KEY" then some "k" else none

/-- One uploaded PDF file, reduced to what get_pdf_text reads from it: the
string `page.extract_text()` yields for each page, in page order. PyPDF2
returns the empty string for a page with no extractable text. -/
structure UploadPdf where
  pages : List String
deriving DecidableEq, Repr

/-- Lines 46-52 of src/pdf_chat_api.py: start from the empty string and, for
each file in list order and each page in page order, append the extracted
page text. -/
def get_pdf_text (pdf_docs : List UploadPdf) : String :=
  pdf_docs.foldl (fun text pdf => pdf.pages.foldl (fun t p => t ++ p) text) ""

/-- Response of an endpoint: success body, or an HTTPException with a status
code and a detail string (FastAPI renders the latter as a JSON object with a
single detail field). -/
inductive Response where
  | ok (answer : String)
  | error (status : Nat) (detail : String)
deriving DecidableEq, Repr

/-- Abstract stage functions of the ask_question pipeline, over an index
state type σ (the contents persisted at chroma_db) and a file-list type F.
Each models one call of lines 107-125 of src/pdf_chat_api.py and may fail
with a Python exception message. -/
structure Env (σ F : Type) where
  /-- Line 107, `get_pdf_text(pdf_files)`: PyPDF2 extraction over the
  uploaded files. -/
  extract : F → Except String String
  /-- Line 109, `get_text_chunks(raw_text)`: the langchain text splitter
  with chunk_size 10000 and chunk_overlap 1000. -/
  split : String → Except String (List String)
  /-- Line 111, `get_vector_store(text_chunks)`: embed the chunks and write
  at the fixed path chroma_db, transforming the on-disk index state. -/
  index : List String → σ → Except String σ
  /-- Lines 113-118: reopen the index persisted at chroma_db and run
  `similarity_search(user_question)`, reading the current index state. -/
  search : σ → String → Except String (List String)
  /-- Lines 120-125: build the conversational chain and invoke the hosted
  model on the retrieved documents and the question. -/
  generate : List String → String → Except String String

/-- Lines 96-129 of src/pdf_chat_api.py: the ask_question endpoint body.
The five stages run in sequence inside a try block; the first failure jumps
to the except handler, which raises HTTPException(400, "Error processing
question: " + message) and leaves the index state as it stands at that
point. The result pairs the HTTP response with the final index state. -/
def ask_question {σ F : Type} (env : Env σ F) (user_question : String)
    (pdf_files : F) (st : σ) : Response × σ :=
  match env.extract pdf_files with
  | Except.error e => (Response.error 400 ("Error processing question: " ++ e), st)
  | Except.ok raw_text =>
    match env.split raw_text with
    | Except.error e => (Response.error 400 ("Error processing question: " ++ e), st)
    | Except.ok text_chunks =>
      match env.index text_chunks st with
      | Except.error e => (Response.error 400 ("Error processing question: " ++ e), st)
      | Except.ok st2 =>
        match env.search st2 user_question with
        | Except.error e => (Response.error 400 ("Error processing question: " ++ e), st2)
        | Except.ok docs =>
          match env.generate docs user_question with
          | Except.error e => (Response.error 400 ("Error processing question: " ++ e), st2)
          | Except.ok answer => (Response.ok answer, st2)

/-- Proposition that running the ask_question pipeline on the given inputs
raises a Python exception with message m at one of its five stages, each
stage being reached with the values actually produced by the preceding
stages. -/
inductive PipelineRaises {σ F : Type} (env : Env σ F) (q : String) (fs : F)
    (st : σ) : String → Prop where
  | extract (m : String) (h : env.extract fs = Except.error m) :
      PipelineRaises env q fs st m
  | split (m raw : String) (h1 : env.extract fs = Except.ok raw)
      (h2 : env.split raw = Except.error m) : PipelineRaises env q fs st m
  | index (m raw : String) (chunks : List String)
      (h1 : env.extract fs = Except.ok raw)
      (h2 : env.split raw = Except.ok chunks)
      (h3 : env.index chunks st = Except.error m) : PipelineRaises env q fs st m
  | search (m raw : String) (chunks : List String) (st2 : σ)
      (h1 : env.extract fs = Except.ok raw)
      (h2 : env.split raw = Except.ok chunks)
      (h3 : env.index chunks st = Except.ok st2)
      (h4 : env.search st2 q = Except.error m) : PipelineRaises env q fs st m
  | generate (m raw : String) (chunks docs : List String) (st2 : σ)
      (h1 : env.extract fs = Except.ok raw)
      (h2 : env.split raw = Except.ok chunks)
      (h3 : env.index chunks st = Except.ok st2)
      (h4 : env.search st2 q = Except.ok docs)
      (h5 : env.generate docs q = Except.error m) : PipelineRaises env q fs st m

/-- Concrete pipeline environment whose extraction stage raises. -/
def envExtractFails : Env Nat Unit where
  extract := fun _ => Except.error "boom"
  split := fun _ => Except.ok []
  index := fun _ s => Except.ok s
  search := fun _ _ => Except.ok []
  generate := fun _ _ => Except.ok "a"

/-- Concrete pipeline environment that extracts, splits and indexes
successfully (the index state records the chunks written) and then fails at
the retrieval stage. -/
def envSearchFails : Env (List String) Unit where
  extract := fun _ => Except.ok "text"
  split := fun _ => Except.ok ["text"]
  index := fun chunks _ => Except.ok chunks
  search := fun _ _ => Except.error "no index"
  generate := fun _ _ => Except.ok "a"

/-- Renders a JSON object whose fields are all strings, as FastAPI
serializes a returned dict of strings. -/
def renderObj (fields : List (String × String)) : String :=
  "\x7b" ++ String.intercalate ", "
    (fields.map fun kv => "\"" ++ kv.1 ++ "\": \"" ++ kv.2 ++ "\"") ++ "\x7d"

/-- Lines 87-92 of src/pdf_chat_api.py: the GET / route returns the welcome
dict; FastAPI serves a plain return value with its default status 200. -/
def read_root : Nat × List (String × String) :=
  (200, [("message", "Welcome to the Ask Docs API!")])

/-! Helper lemmas about string concatenation. -/

theorem foldl_append_join (l : List String) (s : String) :
    l.foldl (fun a b => a ++ b) s = s ++ String.join l := by
  induction l generalizing s with
  | nil =>
    show s = s ++ String.join []
    rw [show String.join [] = "" from rfl, String.append_empty]
  | cons a l ih =>
    show l.foldl (fun a b => a ++ b) (s ++ a) = s ++ String.join (a :: l)
    have hj : String.join (a :: l) = a ++ String.join l := by
      show l.foldl (fun a b => a ++ b) ("" ++ a) = a ++ String.join l
      rw [String.empty_append, ih]
    rw [ih, hj, String.append_assoc]

theorem join_append (a b : List String) :
    String.join (a ++ b) = String.join a ++ String.join b := by
  show (a ++ b).foldl (fun x y => x ++ y) "" = String.join a ++ String.join b
  rw [List.foldl_append, foldl_append_join, foldl_append_join, String.empty_append]

theorem length_join (l : List String) :
    (String.join l).length = (l.map String.length).sum := by
  induction l with
  | nil => rfl
  | cons a l ih =>
    have hj : String.join (a :: l) = a ++ String.join l := by
      show l.foldl (fun x y => x ++ y) ("" ++ a) = a ++ String.join l
      rw [String.empty_append, foldl_append_join]
    rw [hj, String.length_append, ih, List.map_cons, List.sum_cons]

theorem get_pdf_text_eq_join (docs : List UploadPdf) :
    get_pdf_text docs = String.join (docs.flatMap fun d => d.pages) := by
  suffices h : ∀ (ds : List UploadPdf) (s : String),
      ds.foldl (fun text pdf => pdf.pages.foldl (fun t p => t ++ p) text) s =
        s ++ String.join (ds.flatMap fun d => d.pages) by
    have := h docs ""
    rwa [String.empty_append] at this
  intro ds
  induction ds with
  | nil =>
    intro s
    simp only [List.foldl_nil, List.flatMap_nil]
    rw [show String.join [] = "" from rfl, String.append_empty]
  | cons d ds ih =>
    intro s
    simp only [List.foldl_cons, List.flatMap_cons]
    rw [foldl_append_join, ih, join_append, String.append_assoc]

/-! Claim theorems. -/

/-- Claim C3: for every exception raised anywhere inside the ask_question
pipeline (extraction, chunking, indexing, retrieval, or generation), the
endpoint catches it and responds with HTTP status 400 and a body whose
detail field is the string "Error processing question: " followed by the
exception message; all such failures collapse uniformly to this one status
code and message shape. -/
theorem ask_question_uniform_400 {σ F : Type} (env : Env σ F) (q : String)
    (fs : F) (st : σ) (m : String) (h : PipelineRaises env q fs st m) :
    (ask_question env q fs st).1 =
      Response.error 400 ("Error processing question: " ++ m) := by
  cases h with
  | extract h => simp [ask_question, h]
  | split raw h1 h2 => simp [ask_question, h1, h2]
  | index raw chunks h1 h2 h3 => simp [ask_question, h1, h2, h3]
  | search raw chunks st2 h1 h2 h3 h4 => simp [ask_question, h1, h2, h3, h4]
  | generate raw chunks docs st2 h1 h2 h3 h4 h5 =>
    simp [ask_question, h1, h2, h3, h4, h5]

/-- Witness for claim C3: a concrete pipeline whose extraction stage raises
with message boom is answered by status 400 and the uniform detail string. -/
theorem ask_question_uniform_400_witness :
    PipelineRaises envExtractFails "q" () 0 "boom" ∧
      (ask_question envExtractFails "q" () 0).1 =
        Response.error 400 "Error processing question: boom" := by
  have hp : PipelineRaises envExtractFails "q" () 0 "boom" :=
    PipelineRaises.extract "boom" rfl
  refine ⟨hp, ?_⟩
  have h := ask_question_uniform_400 envExtractFails "q" () 0 "boom" hp
  rw [h]
  decide

/-- Claim C5: get_pdf_text returns the concatenation, in file-list order and
page order within each file, of every page text; a page yielding no
extractable text contributes the empty string and raises no error (the
embedding is total), so the output length is monotonically non-decreasing
as pages are added to any file of the list. -/
theorem get_pdf_text_spec :
    (∀ docs : List UploadPdf,
        get_pdf_text docs = String.join (docs.flatMap fun d => d.pages)) ∧
    (∀ (a b : List UploadPdf) (d : UploadPdf) (p : String),
        (get_pdf_text (a ++ d :: b)).length ≤
          (get_pdf_text (a ++ { pages := d.pages ++ [p] } :: b)).length) := by
  refine ⟨get_pdf_text_eq_join, ?_⟩
  intro a b d p
  rw [get_pdf_text_eq_join, get_pdf_text_eq_join, length_join, length_join]
  simp only [List.flatMap_append, List.flatMap_cons, List.map_append,
    List.sum_append, List.map_cons, List.sum_cons, List.map_nil, List.sum_nil]
  omega

/-- Counterexample for claim C7: the claim asserts that whenever the
GOOGLE_API_KEY variable is present, startup proceeds past the credential
check; it is false, because the check on line 19 of src/pdf_chat_api.py
uses Python truthiness, so a present but empty value also aborts startup. -/
theorem moduleInit_present_not_sufficient :
    ¬ ∀ env : String → Option String, (env "GOOGLE_API_KEY").isSome = true →
        ∃ routes, moduleInit env = InitResult.running routes := by
  intro h
  rcases h envEmptyKey (by decide) with ⟨routes, hr⟩
  have hf : moduleInit envEmptyKey = InitResult.failed keyMissingMsg := by decide
  rw [hf] at hr
  simp at hr

/-- Claim C7 (amended): if GOOGLE_API_KEY is absent, or present with the
empty value, module initialization raises the ValueError, no app is created
and no HTTP endpoint becomes reachable; if it is present and non-empty,
startup proceeds past the credential check and both routes are registered. -/
theorem moduleInit_credential_check (env : String → Option String) :
    ((env "GOOGLE_API_KEY" = none ∨ env "GOOGLE_API_KEY" = some "") →
        moduleInit env = InitResult.failed keyMissingMsg) ∧
    (∀ k, env "GOOGLE_API_KEY" = some k → k ≠ "" →
        moduleInit env = InitResult.running ["/", "/ask_question/"]) := by
  constructor
  · intro h
    rcases h with h | h <;> simp [moduleInit, pyFalsyStr, h]
  · intro k hk hne
    simp [moduleInit, pyFalsyStr, hk, hne]

/-- Witness for claim C7: with the variable absent, initialization fails
with the ValueError message and no route exists; with a non-empty value,
the app is created with both routes. -/
theorem moduleInit_credential_check_witness :
    moduleInit envAbsent = InitResult.failed keyMissingMsg ∧
      moduleInit envGoodKey = InitResult.running ["/", "/ask_question/"] :=
  ⟨(moduleInit_credential_check envAbsent).1 (Or.inl rfl),
   (moduleInit_credential_check envGoodKey).2 "k" (by decide) (by decide)⟩

/-- Claim C9: GET / always returns HTTP status 200 and the exact JSON body
consisting of the single field message with value Welcome to the Ask Docs
API! (rendered with the object braces written as escapes below). -/
theorem read_root_response :
    read_root.1 = 200 ∧
      renderObj read_root.2 =
        "\x7b\"message\": \"Welcome to the Ask Docs API!\"\x7d" := by
  constructor
  · rfl
  · decide

/-- Claim C10: the error path is not atomic with respect to the persisted
index. Whenever get_vector_store completes successfully (the index state
becomes st2, holding the written chunks) and a later stage (retrieval or
generation) raises, the endpoint returns the HTTP 400 error while the final
index state is still st2: the catch-all handler performs no rollback. -/
theorem ask_question_no_rollback {σ F : Type} (env : Env σ F) (q : String)
    (fs : F) (st st2 : σ) (raw : String) (chunks : List String) (m : String)
    (h1 : env.extract fs = Except.ok raw)
    (h2 : env.split raw = Except.ok chunks)
    (h3 : env.index chunks st = Except.ok st2)
    (h4 : env.search st2 q = Except.error m ∨
      ∃ docs, env.search st2 q = Except.ok docs ∧
        env.generate docs q = Except.error m) :
    ask_question env q fs st =
      (Response.error 400 ("Error processing question: " ++ m), st2) := by
  rcases h4 with h4 | ⟨docs, h4, h5⟩
  · simp [ask_question, h1, h2, h3, h4]
  · simp [ask_question, h1, h2, h3, h4, h5]

/-- Witness for claim C10: a concrete pipeline that indexes the chunk list
and then fails at retrieval answers with the 400 error while the final
index state still holds the chunks written before the failure, not the
empty state the request started from. -/
theorem ask_question_no_rollback_witness :
    ask_question envSearchFails "q" () ([] : List String) =
      (Response.error 400 "Error processing question: no index", ["text"]) := by
  have h := ask_question_no_rollback envSearchFails "q" () [] ["text"] "text"
    ["text"] "no index" rfl rfl rfl (Or.inl rfl)
  rw [h]
  decide

end PdfChatApi
